import Mathlib

/-!
Verification of the RoboCup GameController client (fumanoid referee
controller and the GameCtrl receive variant) against its specification.

The definitions below are a shallow embedding of
src/fumanoid.cpp (RefereeGameController) and src/unnamed/part_000
(GameCtrl).  Machine integers are modelled as Int, the fixed-size
wire arrays as total functions on Int (only in-bounds indices are
ever used by the embedded code), and the raw byte buffer of a datagram
as its length together with the struct fields it would be cast to.
-/

/-- Modelled from the spec: the supported protocol version constant
STRUCT_VERSION from the missing header referee.h / RoboCupGameControlData.h.
Its concrete value is unconstrained by the sources in src; only equality
with a packet's version field is ever used. -/
def STRUCT_VERSION : Int := 7

/-- Modelled from the spec: the 4-byte ASCII magic tag STRUCT_HEADER of the
referee broadcast struct, from the missing header.  Only equality with a
buffer's first 4 bytes is ever used. -/
def STRUCT_HEADER : List Nat := [82, 71, 109, 101]

/-- Modelled from the spec: magic tag name used by the GameCtrl variant;
same protocol constant as STRUCT_HEADER. -/
def GAMECONTROLLER_STRUCT_HEADER : List Nat := STRUCT_HEADER

/-- Modelled from the spec: protocol version name used by the GameCtrl
variant; same protocol constant as STRUCT_VERSION. -/
def GAMECONTROLLER_STRUCT_VERSION : Int := STRUCT_VERSION

/-- Modelled from the spec: team colour code for magenta from the missing
header; only equality with a packet's teamColour field is used. -/
def TEAM_MAGENTA : Int := 1

/-- Modelled from the spec: team colour code for cyan from the missing header. -/
def TEAM_CYAN : Int := 0

/-- Modelled from the spec: referee game-state codes from the missing header.
The five codes are pairwise distinct; their concrete values are otherwise
unconstrained by src. -/
def STATE_INITIAL : Int := 0

/-- Modelled from the spec: referee game-state code READY. -/
def STATE_READY : Int := 1

/-- Modelled from the spec: referee game-state code SET. -/
def STATE_SET : Int := 2

/-- Modelled from the spec: referee game-state code PLAYING. -/
def STATE_PLAYING : Int := 3

/-- Modelled from the spec: referee game-state code FINISHED. -/
def STATE_FINISHED : Int := 4

/-- Modelled from the spec: secondary game-state code for normal play. -/
def STATE2_NORMAL : Int := 0

/-- Modelled from the spec: secondary game-state code for penalty shootout. -/
def STATE2_PENALTYSHOOT : Int := 1

/-- Maximum number of players per team.  The value 11 is fixed by the source
comment in getGCRobotID: robots 1..11 are mapped to 0..10. -/
def MAX_NUM_PLAYERS : Int := 11

/-- Modelled from the spec: 4-byte ASCII magic tag of the outbound return
struct, distinct from the inbound one. -/
def GAMECONTROLLER_RETURN_STRUCT_HEADER : List Nat := [82, 71, 114, 116]

/-- Modelled from the spec: version constant of the outbound return struct. -/
def GAMECONTROLLER_RETURN_STRUCT_VERSION : Int := 2

/-- Modelled from the spec: return message code ALIVE = 0. -/
def GAMECONTROLLER_RETURN_MSG_ALIVE : Int := 0

/-- Modelled from the spec: return message code MANUAL_PENALISE = 1. -/
def GAMECONTROLLER_RETURN_MSG_MAN_PENALISE : Int := 1

/-- Modelled from the spec: return message code MANUAL_UNPENALISE = 2. -/
def GAMECONTROLLER_RETURN_MSG_MAN_UNPENALISE : Int := 2

/-- Per-player record of the referee broadcast struct: seconds until the
player is unpenalised. -/
structure RobotInfo where
  secsTillUnpenalised : Int
  deriving DecidableEq

/-- Per-team record of the referee broadcast struct.  The player array of
the wire struct is modelled as a total function; the embedded code only
reads indices 0 .. MAX_NUM_PLAYERS - 1. -/
structure TeamInfo where
  teamNumber : Int
  teamColour : Int
  score : Int
  players : Int → RobotInfo

/-- The referee broadcast struct RoboCupGameControlData.  The header field
holds the first 4 bytes of the buffer; teams is the two-element team array
modelled as a total function read only at indices 0 and 1. -/
structure RoboCupGameControlData where
  header : List Nat
  version : Int
  teams : Int → TeamInfo
  state : Int
  secGameState : Int
  kickOffTeam : Int

/-- The outbound return struct RoboCupGameControlReturnData. -/
structure RoboCupGameControlReturnData where
  header : List Nat
  version : Int
  team : Int
  player : Int
  message : Int
  deriving DecidableEq

/-- Local team colour, enum Color of the controller. -/
inductive Color where
  | Magenta
  | Cyan
  deriving DecidableEq

/-- Local game phase, GAME_* enum of the controller. -/
inductive GameState where
  | GAME_STOPPED
  | GAME_READY
  | GAME_SET
  | GAME_STARTED
  deriving DecidableEq

/-- Local kickoff mode, KICKOFF_* enum of the controller. -/
inductive KickOffMode where
  | KICKOFF_REGULAR
  | KICKOFF_DROPBALL
  deriving DecidableEq

/-- Local kickoff side, KICKOFFSIDE_* enum of the controller. -/
inductive KickOffSide where
  | KICKOFFSIDE_ME
  | KICKOFFSIDE_OPPONENT
  | KICKOFFSIDE_ANY
  deriving DecidableEq

/-- The reconciled local game state (field state of RefereeGameController). -/
@[ext]
structure LocalGameState where
  teamID : Int
  teamColor : Color
  opponentID : Int
  teamScore : Int
  opponentScore : Int
  gameState : GameState
  isPenaltyShoot : Bool
  kickOffMode : KickOffMode
  kickOffSide : KickOffSide
  isPenalized : Bool
  remainingPenalizedTime : Int
  counter : Nat
  deriving DecidableEq

/-- The mutable parts of the RefereeGameController object that
handleRefereeMessage touches: the enable flag, the initialized flag and the
local game state. -/
@[ext]
structure RefereeGameController where
  refereeEnabled : Bool
  GCinitialized : Bool
  state : LocalGameState
  deriving DecidableEq

/-- Outcome labels for the distinct return paths of handleRefereeMessage,
named as in the specification of ReconciliationEngine.reconcile. -/
inductive ReconcileOutcome where
  | Applied
  | IgnoredNotAddressed
  | IgnoredVersionMismatch
  | IgnoredDisabled
  deriving DecidableEq

/-- RefereeGameController::getGCRobotID: robots 1..MAX_NUM_PLAYERS are mapped
to 0..MAX_NUM_PLAYERS-1; all other IDs yield the error value -1. -/
def getGCRobotID (robotID : Int) : Int :=
  if robotID > 0 ∧ robotID ≤ MAX_NUM_PLAYERS then robotID - 1 else -1

/-- The team-addressing scan of handleRefereeMessage: the first of the two
team records whose team number equals the local team ID, if any. -/
def teamIndexOf (data : RoboCupGameControlData) (teamID : Int) : Option Int :=
  if (data.teams 0).teamNumber = teamID then some 0
  else if (data.teams 1).teamNumber = teamID then some 1
  else none

/-- Score sync block of handleRefereeMessage: adjust own and opponent score
when they differ from the packet. -/
def scoreSync (data : RoboCupGameControlData) (teamIndex : Int)
    (s : LocalGameState) : LocalGameState :=
  let s1 := if (data.teams teamIndex).score ≠ s.teamScore then
      { s with teamScore := (data.teams teamIndex).score }
    else s
  if (data.teams (1 - teamIndex)).score ≠ s1.opponentScore then
    { s1 with opponentScore := (data.teams (1 - teamIndex)).score }
  else s1

/-- Kickoff block of handleRefereeMessage: the drop-ball branch followed by
the kickoff side-mismatch branch, in source order. -/
def kickoffSync (data : RoboCupGameControlData) (teamIndex : Int)
    (s : LocalGameState) : LocalGameState :=
  let s1 := if data.kickOffTeam = 2 ∧ s.kickOffMode ≠ KickOffMode.KICKOFF_DROPBALL then
      { s with kickOffMode := KickOffMode.KICKOFF_DROPBALL,
               kickOffSide := KickOffSide.KICKOFFSIDE_ANY }
    else s
  if (data.kickOffTeam = teamIndex ∧ s1.kickOffSide ≠ KickOffSide.KICKOFFSIDE_ME)
      ∨ (data.kickOffTeam = 1 - teamIndex ∧ s1.kickOffSide ≠ KickOffSide.KICKOFFSIDE_OPPONENT) then
    { s1 with kickOffMode := KickOffMode.KICKOFF_REGULAR,
              kickOffSide := if data.kickOffTeam = teamIndex then
                  KickOffSide.KICKOFFSIDE_ME
                else KickOffSide.KICKOFFSIDE_OPPONENT }
  else s1

/-- Team colour block of handleRefereeMessage. -/
def colorSync (data : RoboCupGameControlData) (teamIndex : Int)
    (s : LocalGameState) : LocalGameState :=
  let teamColor := if (data.teams teamIndex).teamColour = TEAM_MAGENTA then
      Color.Magenta
    else Color.Cyan
  if teamColor ≠ s.teamColor then { s with teamColor := teamColor } else s

/-- Game state block of handleRefereeMessage: the guarded else-if chain
mapping the referee phase onto the local phase. -/
def gameStateSync (data : RoboCupGameControlData)
    (s : LocalGameState) : LocalGameState :=
  if data.state = STATE_INITIAL ∧ s.gameState ≠ GameState.GAME_STOPPED then
    { s with gameState := GameState.GAME_STOPPED }
  else if data.state = STATE_READY ∧ s.gameState ≠ GameState.GAME_READY then
    { s with gameState := GameState.GAME_READY }
  else if data.state = STATE_SET ∧ s.gameState ≠ GameState.GAME_SET then
    { s with gameState := GameState.GAME_SET }
  else if data.state = STATE_PLAYING ∧ s.gameState ≠ GameState.GAME_STARTED then
    { s with gameState := GameState.GAME_STARTED }
  else if data.state = STATE_FINISHED ∧ s.gameState ≠ GameState.GAME_STOPPED then
    { s with gameState := GameState.GAME_STOPPED }
  else s

/-- Penalty shootout block of handleRefereeMessage. -/
def penaltyShootSync (data : RoboCupGameControlData)
    (s : LocalGameState) : LocalGameState :=
  if data.secGameState = STATE2_NORMAL ∧ s.isPenaltyShoot then
    { s with isPenaltyShoot := false }
  else if data.secGameState = STATE2_PENALTYSHOOT ∧ s.isPenaltyShoot = false then
    { s with isPenaltyShoot := true }
  else s

/-- Penalty block of handleRefereeMessage: per-robot penalty lookup, skipped
when getGCRobotID reports the error value -1. -/
def penaltySync (robotID : Int) (data : RoboCupGameControlData) (teamIndex : Int)
    (s : LocalGameState) : LocalGameState :=
  let gcRobotID := getGCRobotID robotID
  if gcRobotID ≠ -1 then
    let s1 := { s with remainingPenalizedTime :=
        ((data.teams teamIndex).players gcRobotID).secsTillUnpenalised }
    if s1.remainingPenalizedTime > 0 then { s1 with isPenalized := true }
    else { s1 with isPenalized := false, remainingPenalizedTime := 0 }
  else s

/-- The body of handleRefereeMessage once the packet passed the version,
enabled and addressing checks: counter increment, opponent ID, then the six
sync blocks in source order. -/
def applyAddressed (robotID : Int) (data : RoboCupGameControlData)
    (teamIndex : Int) (s : LocalGameState) : LocalGameState :=
  let s0 := { s with counter := s.counter + 1,
                     opponentID := (data.teams (1 - teamIndex)).teamNumber }
  penaltySync robotID data teamIndex
    (penaltyShootSync data
      (gameStateSync data
        (colorSync data teamIndex
          (kickoffSync data teamIndex
            (scoreSync data teamIndex s0)))))

/-- RefereeGameController::handleRefereeMessage.  A version mismatch disables
the referee and returns; a disabled referee returns; a packet addressing
neither team record returns; otherwise the addressed update is applied and
GCinitialized is set. -/
def handleRefereeMessage (robotID : Int) (data : RoboCupGameControlData)
    (gc : RefereeGameController) : RefereeGameController × ReconcileOutcome :=
  if data.version ≠ STRUCT_VERSION then
    ({ gc with refereeEnabled := false }, ReconcileOutcome.IgnoredVersionMismatch)
  else if gc.refereeEnabled = false then
    (gc, ReconcileOutcome.IgnoredDisabled)
  else
    match teamIndexOf data gc.state.teamID with
    | none => (gc, ReconcileOutcome.IgnoredNotAddressed)
    | some teamIndex =>
        ({ gc with state := applyAddressed robotID data teamIndex gc.state,
                   GCinitialized := true },
         ReconcileOutcome.Applied)

/-- Handling a sequence of packets one after the other, as the threadMain
receive loop does. -/
def handleSeq (robotID : Int) (ps : List RoboCupGameControlData)
    (gc : RefereeGameController) : RefereeGameController :=
  ps.foldl (fun g p => (handleRefereeMessage robotID p g).1) gc

/-- One iteration of RefereeGameController::threadMain on a received
datagram, given as received size plus the struct fields the buffer is cast
to.  structSize stands for sizeof RoboCupGameControlData (fixed by the
missing header).  If the first 4 bytes match STRUCT_HEADER and the size is
exact, the message is handled and the ALIVE return packet is built and sent;
every other datagram is dropped with no state change and no send. -/
def threadMainStep (structSize : Nat) (robotID : Int) (size : Nat)
    (buffer : RoboCupGameControlData) (gc : RefereeGameController) :
    RefereeGameController × Option RoboCupGameControlReturnData :=
  if buffer.header = STRUCT_HEADER then
    if size ≠ structSize then (gc, none)
    else
      let gc1 := (handleRefereeMessage robotID buffer gc).1
      (gc1, some { header := GAMECONTROLLER_RETURN_STRUCT_HEADER,
                   version := GAMECONTROLLER_RETURN_STRUCT_VERSION,
                   team := gc1.state.teamID,
                   player := robotID,
                   message := GAMECONTROLLER_RETURN_MSG_ALIVE })
  else (gc, none)

/-- Classification of one datagram by the acceptance condition of
GameCtrl::receive, labelling the first failing conjunct of its
short-circuited check (size, then header, then version, then known team
number, then addressing). -/
inductive ReceiveResult where
  | Accepted
  | SizeMismatch
  | BadHeader
  | VersionMismatch
  | NoTeamNumber
  | UnaddressedPacket
  deriving DecidableEq

/-- The acceptance check of GameCtrl::receive over one datagram, with the
first failing conjunct of the source's short-circuited condition as the
result label.  structSize stands for sizeof RoboCupGameControlData. -/
def GameCtrl.receiveClassify (structSize : Nat) (teamNumber : Int) (size : Nat)
    (buffer : RoboCupGameControlData) : ReceiveResult :=
  if size ≠ structSize then ReceiveResult.SizeMismatch
  else if buffer.header ≠ GAMECONTROLLER_STRUCT_HEADER then ReceiveResult.BadHeader
  else if buffer.version ≠ GAMECONTROLLER_STRUCT_VERSION then ReceiveResult.VersionMismatch
  else if teamNumber = 0 then ReceiveResult.NoTeamNumber
  else if (buffer.teams 0).teamNumber ≠ teamNumber
      ∧ (buffer.teams 1).teamNumber ≠ teamNumber then ReceiveResult.UnaddressedPacket
  else ReceiveResult.Accepted

/-- State effect of GameCtrl::receive on one datagram: gameCtrlData is
overwritten by the buffer exactly when the full check passes, and the
received flag is set accordingly. -/
def GameCtrl.receiveStep (structSize : Nat) (teamNumber : Int) (size : Nat)
    (buffer gameCtrlData : RoboCupGameControlData) :
    RoboCupGameControlData × Bool :=
  if GameCtrl.receiveClassify structSize teamNumber size buffer = ReceiveResult.Accepted then
    (buffer, true)
  else (gameCtrlData, false)

/-- Pair-level characterisation of the kickoff block: how the drop-ball
branch followed by the side-mismatch branch transform the pair of kickoff
mode and kickoff side. -/
def kickoffNext (kickOffTeam teamIndex : Int)
    (mk : KickOffMode × KickOffSide) : KickOffMode × KickOffSide :=
  let mk1 := if kickOffTeam = 2 ∧ mk.1 ≠ KickOffMode.KICKOFF_DROPBALL then
      (KickOffMode.KICKOFF_DROPBALL, KickOffSide.KICKOFFSIDE_ANY)
    else mk
  if (kickOffTeam = teamIndex ∧ mk1.2 ≠ KickOffSide.KICKOFFSIDE_ME)
      ∨ (kickOffTeam = 1 - teamIndex ∧ mk1.2 ≠ KickOffSide.KICKOFFSIDE_OPPONENT) then
    (KickOffMode.KICKOFF_REGULAR,
     if kickOffTeam = teamIndex then KickOffSide.KICKOFFSIDE_ME
     else KickOffSide.KICKOFFSIDE_OPPONENT)
  else mk1

/-- Characterisation of the game state block as an unguarded mapping: the
guarded else-if chain of the source computes exactly this function. -/
def mapGameState (ds : Int) (g : GameState) : GameState :=
  if ds = STATE_INITIAL then GameState.GAME_STOPPED
  else if ds = STATE_READY then GameState.GAME_READY
  else if ds = STATE_SET then GameState.GAME_SET
  else if ds = STATE_PLAYING then GameState.GAME_STARTED
  else if ds = STATE_FINISHED then GameState.GAME_STOPPED
  else g

/-- Characterisation of the penalty shootout block as an unguarded mapping. -/
def mapPenaltyShoot (sec : Int) (b : Bool) : Bool :=
  if sec = STATE2_NORMAL then false
  else if sec = STATE2_PENALTYSHOOT then true
  else b

/-- Pair-level characterisation of the penalty block: how it transforms the
pair of remaining penalized time and isPenalized flag. -/
def penaltyNext (robotID : Int) (data : RoboCupGameControlData) (teamIndex : Int)
    (x : Int × Bool) : Int × Bool :=
  let gcRobotID := getGCRobotID robotID
  if gcRobotID ≠ -1 then
    let secs := ((data.teams teamIndex).players gcRobotID).secsTillUnpenalised
    if secs > 0 then (secs, true) else (0, false)
  else x

/-- A sample local game state used to instantiate witness theorems. -/
def sampleState : LocalGameState :=
  { teamID := 2, teamColor := Color.Cyan, opponentID := 0, teamScore := 0,
    opponentScore := 0, gameState := GameState.GAME_STOPPED,
    isPenaltyShoot := false, kickOffMode := KickOffMode.KICKOFF_REGULAR,
    kickOffSide := KickOffSide.KICKOFFSIDE_ME, isPenalized := false,
    remainingPenalizedTime := 0, counter := 0 }

/-- A sample controller with the referee enabled, used in witnesses. -/
def sampleGC : RefereeGameController :=
  { refereeEnabled := true, GCinitialized := false, state := sampleState }

/-- A sample valid packet addressed to team 2 in slot 0 (opponent team 5). -/
def addressedPacket : RoboCupGameControlData :=
  { header := STRUCT_HEADER,
    version := STRUCT_VERSION,
    teams := fun i =>
      if i = 0 then
        { teamNumber := 2, teamColour := 1, score := 1,
          players := fun _ => { secsTillUnpenalised := 15 } }
      else
        { teamNumber := 5, teamColour := 0, score := 0,
          players := fun _ => { secsTillUnpenalised := 0 } },
    state := 3, secGameState := 0, kickOffTeam := 0 }

/-- The sample addressed packet with the drop-ball sentinel as kickoff team. -/
def dropBallPacket : RoboCupGameControlData :=
  { addressedPacket with kickOffTeam := 2 }

/-- A sample valid packet addressed to neither team 2 slot (teams 7 and 8). -/
def unaddressedPacket : RoboCupGameControlData :=
  { header := STRUCT_HEADER,
    version := STRUCT_VERSION,
    teams := fun i =>
      if i = 0 then
        { teamNumber := 7, teamColour := 0, score := 0,
          players := fun _ => { secsTillUnpenalised := 0 } }
      else
        { teamNumber := 8, teamColour := 1, score := 3,
          players := fun _ => { secsTillUnpenalised := 0 } },
    state := 1, secGameState := 0, kickOffTeam := 0 }

/-- The sample addressed packet with an unsupported version field. -/
def badVersionPacket : RoboCupGameControlData :=
  { addressedPacket with version := STRUCT_VERSION + 1 }

/-- The sample addressed packet with a wrong magic tag in its first 4 bytes. -/
def badHeaderPacket : RoboCupGameControlData :=
  { addressedPacket with header := [0, 0, 0, 0] }

/-- The score block always leaves both score fields equal to the packet's. -/
theorem scoreSync_eq (data : RoboCupGameControlData) (teamIndex : Int)
    (s : LocalGameState) :
    scoreSync data teamIndex s =
      { s with teamScore := (data.teams teamIndex).score,
               opponentScore := (data.teams (1 - teamIndex)).score } := by
  unfold scoreSync
  split_ifs <;> simp_all [LocalGameState.mk.injEq]

/-- The kickoff block acts on the pair of kickoff fields as kickoffNext. -/
theorem kickoffSync_eq (data : RoboCupGameControlData) (teamIndex : Int)
    (s : LocalGameState) :
    kickoffSync data teamIndex s =
      { s with kickOffMode := (kickoffNext data.kickOffTeam teamIndex
                  (s.kickOffMode, s.kickOffSide)).1,
               kickOffSide := (kickoffNext data.kickOffTeam teamIndex
                  (s.kickOffMode, s.kickOffSide)).2 } := by
  obtain ⟨tid, tc, oid, ts, os, gs, ips, km, ks, ip, rp, c⟩ := s
  unfold kickoffSync kickoffNext
  split_ifs <;> simp_all [LocalGameState.mk.injEq] <;>
    split_ifs <;> simp_all [LocalGameState.mk.injEq]

/-- The colour block always leaves the team colour equal to the mapping of
the packet's colour field. -/
theorem colorSync_eq (data : RoboCupGameControlData) (teamIndex : Int)
    (s : LocalGameState) :
    colorSync data teamIndex s =
      { s with teamColor := if (data.teams teamIndex).teamColour = TEAM_MAGENTA
            then Color.Magenta else Color.Cyan } := by
  unfold colorSync
  split_ifs <;> simp_all [LocalGameState.mk.injEq]

/-- The game state block computes mapGameState. -/
theorem gameStateSync_eq (data : RoboCupGameControlData) (s : LocalGameState) :
    gameStateSync data s = { s with gameState := mapGameState data.state s.gameState } := by
  obtain ⟨tid, tc, oid, ts, os, gs, ips, km, ks, ip, rp, c⟩ := s
  unfold gameStateSync mapGameState STATE_INITIAL STATE_READY STATE_SET STATE_PLAYING STATE_FINISHED
  split_ifs <;> simp_all [LocalGameState.mk.injEq]

/-- The penalty shootout block computes mapPenaltyShoot. -/
theorem penaltyShootSync_eq (data : RoboCupGameControlData) (s : LocalGameState) :
    penaltyShootSync data s =
      { s with isPenaltyShoot := mapPenaltyShoot data.secGameState s.isPenaltyShoot } := by
  obtain ⟨tid, tc, oid, ts, os, gs, ips, km, ks, ip, rp, c⟩ := s
  unfold penaltyShootSync mapPenaltyShoot STATE2_NORMAL STATE2_PENALTYSHOOT
  split_ifs <;> simp_all [LocalGameState.mk.injEq]

/-- The penalty block acts on the pair of penalty fields as penaltyNext. -/
theorem penaltySync_eq (robotID : Int) (data : RoboCupGameControlData)
    (teamIndex : Int) (s : LocalGameState) :
    penaltySync robotID data teamIndex s =
      { s with remainingPenalizedTime := (penaltyNext robotID data teamIndex
                  (s.remainingPenalizedTime, s.isPenalized)).1,
               isPenalized := (penaltyNext robotID data teamIndex
                  (s.remainingPenalizedTime, s.isPenalized)).2 } := by
  simp only [penaltySync, penaltyNext]
  split_ifs <;> simp_all [LocalGameState.mk.injEq]

/-- Full field-level characterisation of the addressed update: the value of
every field of the resulting local game state. -/
theorem applyAddressed_eq (robotID : Int) (data : RoboCupGameControlData)
    (teamIndex : Int) (s : LocalGameState) :
    applyAddressed robotID data teamIndex s =
      { teamID := s.teamID,
        teamColor := if (data.teams teamIndex).teamColour = TEAM_MAGENTA
            then Color.Magenta else Color.Cyan,
        opponentID := (data.teams (1 - teamIndex)).teamNumber,
        teamScore := (data.teams teamIndex).score,
        opponentScore := (data.teams (1 - teamIndex)).score,
        gameState := mapGameState data.state s.gameState,
        isPenaltyShoot := mapPenaltyShoot data.secGameState s.isPenaltyShoot,
        kickOffMode := (kickoffNext data.kickOffTeam teamIndex
            (s.kickOffMode, s.kickOffSide)).1,
        kickOffSide := (kickoffNext data.kickOffTeam teamIndex
            (s.kickOffMode, s.kickOffSide)).2,
        isPenalized := (penaltyNext robotID data teamIndex
            (s.remainingPenalizedTime, s.isPenalized)).2,
        remainingPenalizedTime := (penaltyNext robotID data teamIndex
            (s.remainingPenalizedTime, s.isPenalized)).1,
        counter := s.counter + 1 } := by
  unfold applyAddressed
  simp only [scoreSync_eq, kickoffSync_eq, colorSync_eq, gameStateSync_eq,
    penaltyShootSync_eq, penaltySync_eq]

/-- A successful addressing scan finds index 0 or index 1. -/
theorem teamIndexOf_mem (data : RoboCupGameControlData) (teamID ti : Int)
    (h : teamIndexOf data teamID = some ti) : ti = 0 ∨ ti = 1 := by
  unfold teamIndexOf at h
  split_ifs at h <;> simp_all

/-- On a version-correct packet with the referee enabled and an addressed
team record, handleRefereeMessage applies the addressed update, marks the
controller initialized and reports Applied. -/
theorem handleRefereeMessage_applied (robotID : Int)
    (data : RoboCupGameControlData) (gc : RefereeGameController) (ti : Int)
    (hv : data.version = STRUCT_VERSION) (he : gc.refereeEnabled = true)
    (hti : teamIndexOf data gc.state.teamID = some ti) :
    handleRefereeMessage robotID data gc =
      ({ gc with state := applyAddressed robotID data ti gc.state,
                 GCinitialized := true }, ReconcileOutcome.Applied) := by
  unfold handleRefereeMessage
  rw [hv, hti]
  simp [he]

/-- The addressed update never changes the stored team ID. -/
theorem applyAddressed_teamID (robotID : Int) (data : RoboCupGameControlData)
    (teamIndex : Int) (s : LocalGameState) :
    (applyAddressed robotID data teamIndex s).teamID = s.teamID := by
  rw [applyAddressed_eq]

/-- handleRefereeMessage never changes the stored team ID. -/
theorem handleRefereeMessage_teamID (robotID : Int)
    (data : RoboCupGameControlData) (gc : RefereeGameController) :
    (handleRefereeMessage robotID data gc).1.state.teamID = gc.state.teamID := by
  unfold handleRefereeMessage
  split_ifs <;> try rfl
  cases h : teamIndexOf data gc.state.teamID <;> simp [h, applyAddressed_teamID]

/-- The kickoff pair transformation is idempotent for team indices 0 and 1. -/
theorem kickoffNext_idem (kickOffTeam teamIndex : Int)
    (mk : KickOffMode × KickOffSide) (hti : teamIndex = 0 ∨ teamIndex = 1) :
    kickoffNext kickOffTeam teamIndex (kickoffNext kickOffTeam teamIndex mk) =
      kickoffNext kickOffTeam teamIndex mk := by
  obtain ⟨m, k⟩ := mk
  rcases hti with h | h <;> subst h <;>
    by_cases h2 : kickOffTeam = 2 <;> by_cases h0 : kickOffTeam = 0 <;>
    by_cases h1 : kickOffTeam = 1 <;> cases m <;> cases k <;>
    simp_all [kickoffNext]

/-- The game state mapping is idempotent. -/
theorem mapGameState_idem (ds : Int) (g : GameState) :
    mapGameState ds (mapGameState ds g) = mapGameState ds g := by
  unfold mapGameState
  split_ifs <;> rfl

/-- The penalty shootout mapping is idempotent. -/
theorem mapPenaltyShoot_idem (sec : Int) (b : Bool) :
    mapPenaltyShoot sec (mapPenaltyShoot sec b) = mapPenaltyShoot sec b := by
  unfold mapPenaltyShoot
  split_ifs <;> rfl

/-- The penalty pair transformation is idempotent. -/
theorem penaltyNext_idem (robotID : Int) (data : RoboCupGameControlData)
    (teamIndex : Int) (x : Int × Bool) :
    penaltyNext robotID data teamIndex (penaltyNext robotID data teamIndex x) =
      penaltyNext robotID data teamIndex x := by
  simp only [penaltyNext]
  split_ifs <;> simp_all

/-- Applying the addressed update twice with the same packet changes only
the counter the second time. -/
theorem applyAddressed_idem (robotID : Int) (data : RoboCupGameControlData)
    (teamIndex : Int) (s : LocalGameState)
    (hti : teamIndex = 0 ∨ teamIndex = 1) :
    applyAddressed robotID data teamIndex (applyAddressed robotID data teamIndex s) =
      { applyAddressed robotID data teamIndex s with
          counter := (applyAddressed robotID data teamIndex s).counter + 1 } := by
  simp only [applyAddressed_eq]
  simp [LocalGameState.mk.injEq, mapGameState_idem, mapPenaltyShoot_idem,
    kickoffNext_idem _ _ _ hti, penaltyNext_idem]

/-- A disabled controller is never mutated except for keeping the enable
flag false: the state is returned unchanged and the flag stays false. -/
theorem handleRefereeMessage_disabled (robotID : Int)
    (data : RoboCupGameControlData) (gc : RefereeGameController)
    (h : gc.refereeEnabled = false) :
    (handleRefereeMessage robotID data gc).1.state = gc.state ∧
    (handleRefereeMessage robotID data gc).1.refereeEnabled = false := by
  unfold handleRefereeMessage
  split_ifs <;> simp_all

/-- Once disabled, a whole sequence of packets leaves the state unchanged
and the controller disabled. -/
theorem handleSeq_disabled (robotID : Int) (ps : List RoboCupGameControlData)
    (gc : RefereeGameController) (h : gc.refereeEnabled = false) :
    (handleSeq robotID ps gc).state = gc.state ∧
    (handleSeq robotID ps gc).refereeEnabled = false := by
  induction ps generalizing gc with
  | nil => exact ⟨rfl, h⟩
  | cons p ps ih =>
      have hd := handleRefereeMessage_disabled robotID p gc h
      have hs := ih (handleRefereeMessage robotID p gc).1 hd.2
      simp only [handleSeq, List.foldl_cons] at hs ⊢
      exact ⟨hs.1.trans hd.1, hs.2⟩

/-- The kickoff pair transformation preserves the invariant that drop-ball
mode forces the Either side, for team indices 0 and 1. -/
theorem kickoffNext_dropball_any (kickOffTeam teamIndex : Int)
    (m : KickOffMode) (k : KickOffSide) (hti : teamIndex = 0 ∨ teamIndex = 1)
    (hinv : m = KickOffMode.KICKOFF_DROPBALL → k = KickOffSide.KICKOFFSIDE_ANY) :
    (kickoffNext kickOffTeam teamIndex (m, k)).1 = KickOffMode.KICKOFF_DROPBALL →
    (kickoffNext kickOffTeam teamIndex (m, k)).2 = KickOffSide.KICKOFFSIDE_ANY := by
  rcases hti with h | h <;> subst h <;>
    by_cases h2 : kickOffTeam = 2 <;> by_cases h0 : kickOffTeam = 0 <;>
    by_cases h1 : kickOffTeam = 1 <;> cases m <;> cases k <;>
    simp_all [kickoffNext]

/-- C1: for every reconciliation of a valid, addressed packet whose
kickoff-team indicator equals 2 (drop-ball sentinel), starting from a stored
Regular kickoff assignment, the resulting local game state has kickoff mode
DropBall and kickoff side Either, whichever team slot the packet addresses:
the drop-ball branch fires first and the side-mismatch branch cannot fire on
indicator 2. -/
theorem claim1_dropball_precedence (robotID : Int)
    (data : RoboCupGameControlData) (gc : RefereeGameController) (ti : Int)
    (hv : data.version = STRUCT_VERSION) (he : gc.refereeEnabled = true)
    (hti : teamIndexOf data gc.state.teamID = some ti)
    (hdrop : data.kickOffTeam = 2)
    (hreg : gc.state.kickOffMode = KickOffMode.KICKOFF_REGULAR) :
    (handleRefereeMessage robotID data gc).1.state.kickOffMode =
      KickOffMode.KICKOFF_DROPBALL ∧
    (handleRefereeMessage robotID data gc).1.state.kickOffSide =
      KickOffSide.KICKOFFSIDE_ANY := by
  have h01 := teamIndexOf_mem data gc.state.teamID ti hti
  rw [handleRefereeMessage_applied robotID data gc ti hv he hti]
  rcases h01 with h | h <;> subst h <;>
    simp [applyAddressed_eq, kickoffNext, hdrop, hreg]

/-- C2: a packet whose version differs from the supported protocol version
makes handleRefereeMessage report a version mismatch, leave the state
untouched and clear the enable flag; from then on any sequence of further
packets, of any content, leaves the local game state unchanged. -/
theorem claim2_version_mismatch_disables (robotID : Int)
    (p : RoboCupGameControlData) (gc : RefereeGameController)
    (ps : List RoboCupGameControlData)
    (hv : p.version ≠ STRUCT_VERSION) :
    (handleRefereeMessage robotID p gc).2 = ReconcileOutcome.IgnoredVersionMismatch ∧
    (handleRefereeMessage robotID p gc).1.refereeEnabled = false ∧
    (handleRefereeMessage robotID p gc).1.state = gc.state ∧
    (handleSeq robotID ps (handleRefereeMessage robotID p gc).1).state = gc.state := by
  have h1 : handleRefereeMessage robotID p gc =
      ({ gc with refereeEnabled := false }, ReconcileOutcome.IgnoredVersionMismatch) := by
    unfold handleRefereeMessage
    simp [hv]
  rw [h1]
  refine ⟨rfl, rfl, rfl, ?_⟩
  exact (handleSeq_disabled robotID ps { gc with refereeEnabled := false } rfl).1

/-- C4: a structurally valid, version-correct packet addressing neither team
record leaves the whole controller unchanged, update counter included, and
is reported as not addressed. -/
theorem claim4_unaddressed_frame (robotID : Int)
    (data : RoboCupGameControlData) (gc : RefereeGameController)
    (hv : data.version = STRUCT_VERSION) (he : gc.refereeEnabled = true)
    (h0 : (data.teams 0).teamNumber ≠ gc.state.teamID)
    (h1 : (data.teams 1).teamNumber ≠ gc.state.teamID) :
    handleRefereeMessage robotID data gc = (gc, ReconcileOutcome.IgnoredNotAddressed) := by
  unfold handleRefereeMessage teamIndexOf
  simp [hv, he, h0, h1]

/-- C10: on every addressed packet the local team colour becomes Magenta
exactly when the addressed record's colour field equals TEAM_MAGENTA and
Cyan for every other value of that field. -/
theorem claim10_team_color_total (robotID : Int)
    (data : RoboCupGameControlData) (gc : RefereeGameController) (ti : Int)
    (hv : data.version = STRUCT_VERSION) (he : gc.refereeEnabled = true)
    (hti : teamIndexOf data gc.state.teamID = some ti) :
    (handleRefereeMessage robotID data gc).1.state.teamColor =
      (if (data.teams ti).teamColour = TEAM_MAGENTA then Color.Magenta else Color.Cyan) := by
  rw [handleRefereeMessage_applied robotID data gc ti hv he hti]
  simp [applyAddressed_eq]

/-- C3: reconciliation is idempotent on observable fields: handling the
same valid, addressed packet a second time yields exactly the state of the
first application with the update counter advanced by one, and nothing
else changed. -/
theorem claim3_reconcile_idempotent (robotID : Int)
    (data : RoboCupGameControlData) (gc : RefereeGameController) (ti : Int)
    (hv : data.version = STRUCT_VERSION) (he : gc.refereeEnabled = true)
    (hti : teamIndexOf data gc.state.teamID = some ti) :
    handleRefereeMessage robotID data (handleRefereeMessage robotID data gc).1 =
      ({ (handleRefereeMessage robotID data gc).1 with
           state := { (handleRefereeMessage robotID data gc).1.state with
             counter := (handleRefereeMessage robotID data gc).1.state.counter + 1 } },
       ReconcileOutcome.Applied) := by
  have h01 := teamIndexOf_mem data gc.state.teamID ti hti
  have h1 := handleRefereeMessage_applied robotID data gc ti hv he hti
  have hti1 : teamIndexOf data
      ({ gc with state := applyAddressed robotID data ti gc.state,
                 GCinitialized := true } : RefereeGameController).state.teamID = some ti := by
    simpa [applyAddressed_teamID] using hti
  have h2 := handleRefereeMessage_applied robotID data
    { gc with state := applyAddressed robotID data ti gc.state, GCinitialized := true }
    ti hv he hti1
  rw [h1, h2, applyAddressed_idem robotID data ti gc.state h01]

/-- C5: after every reconciliation that performs the per-robot penalty
lookup, the remaining penalty time is non-negative, the penalized flag holds
exactly when it is strictly positive, and for a non-negative
secsTillUnpenalised entry the flag equals its strict positivity. -/
theorem claim5_penalty_invariant (robotID : Int)
    (data : RoboCupGameControlData) (gc : RefereeGameController) (ti : Int)
    (hv : data.version = STRUCT_VERSION) (he : gc.refereeEnabled = true)
    (hti : teamIndexOf data gc.state.teamID = some ti)
    (hr : 1 ≤ robotID ∧ robotID ≤ MAX_NUM_PLAYERS) :
    0 ≤ (handleRefereeMessage robotID data gc).1.state.remainingPenalizedTime ∧
    ((handleRefereeMessage robotID data gc).1.state.isPenalized = true ↔
      0 < (handleRefereeMessage robotID data gc).1.state.remainingPenalizedTime) ∧
    (0 ≤ ((data.teams ti).players (robotID - 1)).secsTillUnpenalised →
      (handleRefereeMessage robotID data gc).1.state.isPenalized =
        decide (0 < ((data.teams ti).players (robotID - 1)).secsTillUnpenalised)) := by
  have hid : getGCRobotID robotID = robotID - 1 := by
    unfold getGCRobotID MAX_NUM_PLAYERS
    unfold MAX_NUM_PLAYERS at hr
    rw [if_pos ⟨by omega, by omega⟩]
  rw [handleRefereeMessage_applied robotID data gc ti hv he hti]
  have hne : getGCRobotID robotID ≠ -1 := by rw [hid]; omega
  simp only [applyAddressed_eq, penaltyNext, hid, hne]
  split_ifs with hpos <;> simp_all
  omega

/-- C8: a local robot identifier outside 1..MAX_NUM_PLAYERS skips the
per-robot penalty lookup only — both penalty fields are unchanged while the
other reconciliation steps are applied, the outcome is Applied and the link
stays enabled — and an identifier inside the range is looked up at the
0-based player index robotID - 1. -/
theorem claim8_robot_id_range (robotID : Int)
    (data : RoboCupGameControlData) (gc : RefereeGameController) (ti : Int)
    (hv : data.version = STRUCT_VERSION) (he : gc.refereeEnabled = true)
    (hti : teamIndexOf data gc.state.teamID = some ti) :
    ((robotID ≤ 0 ∨ MAX_NUM_PLAYERS < robotID) →
      (handleRefereeMessage robotID data gc).1.state.remainingPenalizedTime =
        gc.state.remainingPenalizedTime ∧
      (handleRefereeMessage robotID data gc).1.state.isPenalized = gc.state.isPenalized ∧
      (handleRefereeMessage robotID data gc).1.refereeEnabled = true ∧
      (handleRefereeMessage robotID data gc).2 = ReconcileOutcome.Applied ∧
      (handleRefereeMessage robotID data gc).1.state.counter = gc.state.counter + 1 ∧
      (handleRefereeMessage robotID data gc).1.state.teamScore = (data.teams ti).score ∧
      (handleRefereeMessage robotID data gc).1.GCinitialized = true) ∧
    (1 ≤ robotID → robotID ≤ MAX_NUM_PLAYERS →
      getGCRobotID robotID = robotID - 1 ∧
      (handleRefereeMessage robotID data gc).1.state.remainingPenalizedTime =
        (if 0 < ((data.teams ti).players (robotID - 1)).secsTillUnpenalised
         then ((data.teams ti).players (robotID - 1)).secsTillUnpenalised else 0)) := by
  rw [handleRefereeMessage_applied robotID data gc ti hv he hti]
  constructor
  · intro hout
    have hid : getGCRobotID robotID = -1 := by
      unfold getGCRobotID MAX_NUM_PLAYERS
      unfold MAX_NUM_PLAYERS at hout
      rw [if_neg]
      omega
    simp [applyAddressed_eq, penaltyNext, hid, he]
  · intro hlo hhi
    have hid : getGCRobotID robotID = robotID - 1 := by
      unfold getGCRobotID MAX_NUM_PLAYERS
      unfold MAX_NUM_PLAYERS at hhi
      rw [if_pos ⟨by omega, by omega⟩]
    have hne : getGCRobotID robotID ≠ -1 := by rw [hid]; omega
    refine ⟨hid, ?_⟩
    simp only [applyAddressed_eq, penaltyNext, hid, hne]
    split_ifs <;> simp_all

/-- C9: reconciliation preserves the invariant that kickoff mode DropBall
implies kickoff side Either, on every path of handleRefereeMessage. -/
theorem claim9_dropball_invariant (robotID : Int)
    (data : RoboCupGameControlData) (gc : RefereeGameController)
    (hinv : gc.state.kickOffMode = KickOffMode.KICKOFF_DROPBALL →
            gc.state.kickOffSide = KickOffSide.KICKOFFSIDE_ANY) :
    (handleRefereeMessage robotID data gc).1.state.kickOffMode =
      KickOffMode.KICKOFF_DROPBALL →
    (handleRefereeMessage robotID data gc).1.state.kickOffSide =
      KickOffSide.KICKOFFSIDE_ANY := by
  by_cases hv : data.version = STRUCT_VERSION
  · by_cases he : gc.refereeEnabled = true
    · cases hti : teamIndexOf data gc.state.teamID with
      | none =>
          unfold handleRefereeMessage
          simp only [hv, he, hti]
          simpa using hinv
      | some ti =>
          have h01 := teamIndexOf_mem data gc.state.teamID ti hti
          rw [handleRefereeMessage_applied robotID data gc ti hv he hti]
          simp only [applyAddressed_eq]
          exact kickoffNext_dropball_any data.kickOffTeam ti gc.state.kickOffMode
            gc.state.kickOffSide h01 hinv
    · have hd := handleRefereeMessage_disabled robotID data gc (by simpa using he)
      rw [hd.1]
      exact hinv
  · have h1 : handleRefereeMessage robotID data gc =
        ({ gc with refereeEnabled := false }, ReconcileOutcome.IgnoredVersionMismatch) := by
      unfold handleRefereeMessage
      simp [hv]
    rw [h1]
    exact hinv

/-- C6: a datagram whose byte length differs from the fixed struct size is
classified SizeMismatch by the GameCtrl receive check, never overwrites the
stored packet, and is dropped by threadMain with no state change and no
send; a datagram of correct length whose first 4 bytes differ from the
magic tag is classified BadHeader and likewise causes no state change. -/
theorem claim6_decode_errors (structSize : Nat) (teamNumber : Int) (size : Nat)
    (buffer gameCtrlData : RoboCupGameControlData) (robotID : Int)
    (gc : RefereeGameController) :
    (size ≠ structSize →
      GameCtrl.receiveClassify structSize teamNumber size buffer =
        ReceiveResult.SizeMismatch ∧
      GameCtrl.receiveStep structSize teamNumber size buffer gameCtrlData =
        (gameCtrlData, false) ∧
      threadMainStep structSize robotID size buffer gc = (gc, none)) ∧
    (size = structSize → buffer.header ≠ GAMECONTROLLER_STRUCT_HEADER →
      GameCtrl.receiveClassify structSize teamNumber size buffer =
        ReceiveResult.BadHeader ∧
      GameCtrl.receiveStep structSize teamNumber size buffer gameCtrlData =
        (gameCtrlData, false)) := by
  constructor
  · intro h
    refine ⟨?_, ?_, ?_⟩
    · unfold GameCtrl.receiveClassify
      simp [h]
    · unfold GameCtrl.receiveStep GameCtrl.receiveClassify
      simp [h]
    · unfold threadMainStep
      split_ifs <;> simp_all
  · intro h hh
    subst h
    constructor
    · unfold GameCtrl.receiveClassify
      simp [hh]
    · unfold GameCtrl.receiveStep GameCtrl.receiveClassify
      simp [hh]

/-- C7 counterexample: a well-formed packet of correct size and header that
addresses neither team record is ignored as not addressed by
handleRefereeMessage, yet threadMain still sends an acknowledgement for it,
refuting the claim that unaddressed packets trigger no send. -/
theorem claim7_ack_counterexample :
    (unaddressedPacket.teams 0).teamNumber ≠ sampleGC.state.teamID ∧
    (unaddressedPacket.teams 1).teamNumber ≠ sampleGC.state.teamID ∧
    (handleRefereeMessage 3 unaddressedPacket sampleGC).2 =
      ReconcileOutcome.IgnoredNotAddressed ∧
    (threadMainStep 116 3 116 unaddressedPacket sampleGC).2 ≠ none := by
  decide

/-- C7 amended: threadMain sends the ALIVE acknowledgement, carrying the
local team ID and robot ID, upon receiving any datagram whose first 4 bytes
match the magic tag and whose size is exact — regardless of whether the
packet addresses the local team and regardless of its version field. -/
theorem claim7_ack_amended (structSize : Nat) (robotID : Int) (size : Nat)
    (buffer : RoboCupGameControlData) (gc : RefereeGameController)
    (hh : buffer.header = STRUCT_HEADER) (hs : size = structSize) :
    (threadMainStep structSize robotID size buffer gc).2 =
      some { header := GAMECONTROLLER_RETURN_STRUCT_HEADER,
             version := GAMECONTROLLER_RETURN_STRUCT_VERSION,
             team := gc.state.teamID,
             player := robotID,
             message := GAMECONTROLLER_RETURN_MSG_ALIVE } := by
  unfold threadMainStep
  simp [hh, hs, handleRefereeMessage_teamID]

/-- Witness for C1 at a concrete drop-ball packet and enabled controller. -/
theorem claim1_dropball_precedence_witness :
    dropBallPacket.version = STRUCT_VERSION ∧
    sampleGC.refereeEnabled = true ∧
    teamIndexOf dropBallPacket sampleGC.state.teamID = some 0 ∧
    dropBallPacket.kickOffTeam = 2 ∧
    sampleGC.state.kickOffMode = KickOffMode.KICKOFF_REGULAR ∧
    ((handleRefereeMessage 3 dropBallPacket sampleGC).1.state.kickOffMode =
       KickOffMode.KICKOFF_DROPBALL ∧
     (handleRefereeMessage 3 dropBallPacket sampleGC).1.state.kickOffSide =
       KickOffSide.KICKOFFSIDE_ANY) :=
  ⟨by decide, by decide, by decide, by decide, by decide,
   claim1_dropball_precedence 3 dropBallPacket sampleGC 0
     (by decide) (by decide) (by decide) (by decide) (by decide)⟩

/-- Witness for C2 at a concrete bad-version packet followed by a correct,
addressed packet. -/
theorem claim2_version_mismatch_disables_witness :
    badVersionPacket.version ≠ STRUCT_VERSION ∧
    ((handleRefereeMessage 3 badVersionPacket sampleGC).2 =
       ReconcileOutcome.IgnoredVersionMismatch ∧
     (handleRefereeMessage 3 badVersionPacket sampleGC).1.refereeEnabled = false ∧
     (handleRefereeMessage 3 badVersionPacket sampleGC).1.state = sampleGC.state ∧
     (handleSeq 3 [addressedPacket]
        (handleRefereeMessage 3 badVersionPacket sampleGC).1).state = sampleGC.state) :=
  ⟨by decide,
   claim2_version_mismatch_disables 3 badVersionPacket sampleGC [addressedPacket]
     (by decide)⟩

/-- Witness for C3 at a concrete addressed packet applied twice. -/
theorem claim3_reconcile_idempotent_witness :
    addressedPacket.version = STRUCT_VERSION ∧
    sampleGC.refereeEnabled = true ∧
    teamIndexOf addressedPacket sampleGC.state.teamID = some 0 ∧
    handleRefereeMessage 2 addressedPacket
        (handleRefereeMessage 2 addressedPacket sampleGC).1 =
      ({ (handleRefereeMessage 2 addressedPacket sampleGC).1 with
           state := { (handleRefereeMessage 2 addressedPacket sampleGC).1.state with
             counter :=
               (handleRefereeMessage 2 addressedPacket sampleGC).1.state.counter + 1 } },
       ReconcileOutcome.Applied) :=
  ⟨by decide, by decide, by decide,
   claim3_reconcile_idempotent 2 addressedPacket sampleGC 0
     (by decide) (by decide) (by decide)⟩

/-- Witness for C4 at a concrete packet addressing neither slot. -/
theorem claim4_unaddressed_frame_witness :
    unaddressedPacket.version = STRUCT_VERSION ∧
    sampleGC.refereeEnabled = true ∧
    (unaddressedPacket.teams 0).teamNumber ≠ sampleGC.state.teamID ∧
    (unaddressedPacket.teams 1).teamNumber ≠ sampleGC.state.teamID ∧
    handleRefereeMessage 4 unaddressedPacket sampleGC =
      (sampleGC, ReconcileOutcome.IgnoredNotAddressed) :=
  ⟨by decide, by decide, by decide, by decide,
   claim4_unaddressed_frame 4 unaddressedPacket sampleGC
     (by decide) (by decide) (by decide) (by decide)⟩

/-- Witness for C5 at robot ID 2 and a packet with a 15-second penalty. -/
theorem claim5_penalty_invariant_witness :
    addressedPacket.version = STRUCT_VERSION ∧
    sampleGC.refereeEnabled = true ∧
    teamIndexOf addressedPacket sampleGC.state.teamID = some 0 ∧
    (1 ≤ (2 : Int) ∧ (2 : Int) ≤ MAX_NUM_PLAYERS) ∧
    (0 ≤ (handleRefereeMessage 2 addressedPacket sampleGC).1.state.remainingPenalizedTime ∧
     ((handleRefereeMessage 2 addressedPacket sampleGC).1.state.isPenalized = true ↔
       0 < (handleRefereeMessage 2 addressedPacket sampleGC).1.state.remainingPenalizedTime) ∧
     (0 ≤ ((addressedPacket.teams 0).players (2 - 1)).secsTillUnpenalised →
       (handleRefereeMessage 2 addressedPacket sampleGC).1.state.isPenalized =
         decide (0 < ((addressedPacket.teams 0).players (2 - 1)).secsTillUnpenalised))) :=
  ⟨by decide, by decide, by decide, by decide,
   claim5_penalty_invariant 2 addressedPacket sampleGC 0
     (by decide) (by decide) (by decide) (by decide)⟩

/-- Witness for C6: a short datagram and a wrong-header datagram of correct
size, both at concrete inputs. -/
theorem claim6_decode_errors_witness :
    ((100 : Nat) ≠ 116 ∧
     (GameCtrl.receiveClassify 116 2 100 addressedPacket = ReceiveResult.SizeMismatch ∧
      GameCtrl.receiveStep 116 2 100 addressedPacket addressedPacket =
        (addressedPacket, false) ∧
      threadMainStep 116 3 100 addressedPacket sampleGC = (sampleGC, none))) ∧
    (badHeaderPacket.header ≠ GAMECONTROLLER_STRUCT_HEADER ∧
     (GameCtrl.receiveClassify 116 2 116 badHeaderPacket = ReceiveResult.BadHeader ∧
      GameCtrl.receiveStep 116 2 116 badHeaderPacket addressedPacket =
        (addressedPacket, false))) :=
  ⟨⟨by decide,
    (claim6_decode_errors 116 2 100 addressedPacket addressedPacket 3 sampleGC).1
      (by decide)⟩,
   ⟨by decide,
    (claim6_decode_errors 116 2 116 badHeaderPacket addressedPacket 3 sampleGC).2
      rfl (by decide)⟩⟩

/-- Witness for the amended C7 at a concrete well-formed packet. -/
theorem claim7_ack_amended_witness :
    addressedPacket.header = STRUCT_HEADER ∧ (116 : Nat) = 116 ∧
    (threadMainStep 116 3 116 addressedPacket sampleGC).2 =
      some { header := GAMECONTROLLER_RETURN_STRUCT_HEADER,
             version := GAMECONTROLLER_RETURN_STRUCT_VERSION,
             team := sampleGC.state.teamID,
             player := 3,
             message := GAMECONTROLLER_RETURN_MSG_ALIVE } :=
  ⟨by decide, rfl,
   claim7_ack_amended 116 3 116 addressedPacket sampleGC (by decide) rfl⟩

/-- Witness for C8 at an out-of-range robot ID 15 and an in-range robot
ID 2, on the same concrete addressed packet. -/
theorem claim8_robot_id_range_witness :
    addressedPacket.version = STRUCT_VERSION ∧
    sampleGC.refereeEnabled = true ∧
    teamIndexOf addressedPacket sampleGC.state.teamID = some 0 ∧
    ((15 : Int) ≤ 0 ∨ MAX_NUM_PLAYERS < 15) ∧
    ((handleRefereeMessage 15 addressedPacket sampleGC).1.state.remainingPenalizedTime =
       sampleGC.state.remainingPenalizedTime ∧
     (handleRefereeMessage 15 addressedPacket sampleGC).1.state.isPenalized =
       sampleGC.state.isPenalized ∧
     (handleRefereeMessage 15 addressedPacket sampleGC).1.refereeEnabled = true ∧
     (handleRefereeMessage 15 addressedPacket sampleGC).2 = ReconcileOutcome.Applied ∧
     (handleRefereeMessage 15 addressedPacket sampleGC).1.state.counter =
       sampleGC.state.counter + 1 ∧
     (handleRefereeMessage 15 addressedPacket sampleGC).1.state.teamScore =
       (addressedPacket.teams 0).score ∧
     (handleRefereeMessage 15 addressedPacket sampleGC).1.GCinitialized = true) ∧
    (getGCRobotID 2 = 2 - 1 ∧
     (handleRefereeMessage 2 addressedPacket sampleGC).1.state.remainingPenalizedTime =
       (if 0 < ((addressedPacket.teams 0).players (2 - 1)).secsTillUnpenalised
        then ((addressedPacket.teams 0).players (2 - 1)).secsTillUnpenalised else 0)) :=
  ⟨by decide, by decide, by decide, by decide,
   (claim8_robot_id_range 15 addressedPacket sampleGC 0
      (by decide) (by decide) (by decide)).1 (by decide),
   (claim8_robot_id_range 2 addressedPacket sampleGC 0
      (by decide) (by decide) (by decide)).2 (by decide) (by decide)⟩

/-- Witness for C9 at a concrete drop-ball packet from an invariant state. -/
theorem claim9_dropball_invariant_witness :
    (sampleGC.state.kickOffMode = KickOffMode.KICKOFF_DROPBALL →
       sampleGC.state.kickOffSide = KickOffSide.KICKOFFSIDE_ANY) ∧
    ((handleRefereeMessage 3 dropBallPacket sampleGC).1.state.kickOffMode =
       KickOffMode.KICKOFF_DROPBALL →
     (handleRefereeMessage 3 dropBallPacket sampleGC).1.state.kickOffSide =
       KickOffSide.KICKOFFSIDE_ANY) :=
  ⟨by decide, claim9_dropball_invariant 3 dropBallPacket sampleGC (by decide)⟩

/-- Witness for C10 at a concrete addressed packet with the magenta colour
code. -/
theorem claim10_team_color_total_witness :
    addressedPacket.version = STRUCT_VERSION ∧
    sampleGC.refereeEnabled = true ∧
    teamIndexOf addressedPacket sampleGC.state.teamID = some 0 ∧
    (handleRefereeMessage 3 addressedPacket sampleGC).1.state.teamColor =
      (if (addressedPacket.teams 0).teamColour = TEAM_MAGENTA then Color.Magenta
       else Color.Cyan) :=
  ⟨by decide, by decide, by decide,
   claim10_team_color_total 3 addressedPacket sampleGC 0
     (by decide) (by decide) (by decide)⟩
